import Mathlib

/-!
Shallow embedding of the sight SIMD library (src/simd.hpp and src/simd_128.hpp).

A 128-bit vector register is modelled as four 32-bit lanes, each lane being
the natural number that encodes its 32-bit pattern (0 <= lane < 2^32).
Integer lanes are interpreted through the two's-complement reading
`toInt32`; float lanes are interpreted through the IEEE-754 binary32
field decomposition (sign / exponent / mantissa) below.
-/

namespace Sight

/-- Two's-complement reading of a 32-bit pattern as a signed `int32_t`. -/
def toInt32 (n : Nat) : Int :=
  if n < 2 ^ 31 then (n : Int) else (n : Int) - 2 ^ 32

/-- Hardware comparison mask lane: all bits set for true, all bits clear for false. -/
def maskOf (c : Bool) : Nat :=
  if c then 0xFFFFFFFF else 0

/-- Bit patterns of the four 32-bit lanes of an `__m128i` register
(`Vect128i` in src/simd_128.hpp); `l0` is the lowest-addressed lane. -/
structure Vect128i where
  l0 : Nat
  l1 : Nat
  l2 : Nat
  l3 : Nat
deriving DecidableEq

/-- All four lanes are genuine 32-bit patterns. -/
def Vect128i.Wf (v : Vect128i) : Prop :=
  v.l0 < 2 ^ 32 ∧ v.l1 < 2 ^ 32 ∧ v.l2 < 2 ^ 32 ∧ v.l3 < 2 ^ 32

instance (v : Vect128i) : Decidable v.Wf := by
  unfold Vect128i.Wf; infer_instance

/-- Lane accessor (lane k of the register, k = 0..3). -/
def Vect128i.lane (v : Vect128i) (k : Fin 4) : Nat :=
  if k.val = 0 then v.l0 else if k.val = 1 then v.l1 else if k.val = 2 then v.l2 else v.l3

/-- Lane-wise combination of two registers. -/
def Vect128i.map2 (f : Nat → Nat → Nat) (v w : Vect128i) : Vect128i :=
  ⟨f v.l0 w.l0, f v.l1 w.l1, f v.l2 w.l2, f v.l3 w.l3⟩

/-- Embedding of the constructor `Vect128i(int32_t i0, i1, i2, i3)`
(`_mm_setr_epi32`): the first argument lands in lane 0.  Each `int32_t`
argument is stored as its two's-complement 32-bit pattern. -/
def Vect128i.setr (i0 i1 i2 i3 : Int) : Vect128i :=
  ⟨(i0 % (2 ^ 32 : Int)).toNat, (i1 % (2 ^ 32 : Int)).toNat,
   (i2 % (2 ^ 32 : Int)).toNat, (i3 % (2 ^ 32 : Int)).toNat⟩

/-- Embedding of the broadcast constructor `Vect128i(int32_t i)` (`_mm_set1_epi32`). -/
def Vect128i.set1 (i : Int) : Vect128i :=
  ⟨(i % (2 ^ 32 : Int)).toNat, (i % (2 ^ 32 : Int)).toNat,
   (i % (2 ^ 32 : Int)).toNat, (i % (2 ^ 32 : Int)).toNat⟩

/-- Embedding of `Vect128i::operator[]`: `storeu` the register to an
`int32_t[4]` array and read entry `idx`; reading an `int32_t` from the
stored 32-bit pattern is the two's-complement interpretation. -/
def Vect128i.idx (v : Vect128i) (k : Fin 4) : Int :=
  toInt32 (v.lane k)

/-- Embedding of `Vect128i::operator+` (`_mm_add_epi32`): lane-wise
addition of the 32-bit patterns, truncated to 32 bits. -/
def Vect128i.iadd (v w : Vect128i) : Vect128i :=
  Vect128i.map2 (fun a b => (a + b) % 2 ^ 32) v w

/-- Embedding of `_mm_mullo_epi32` (the native path of `Vect128i::operator*`):
each lane is the low 32 bits of the product of the lane patterns. -/
def Vect128i.mullo (v w : Vect128i) : Vect128i :=
  Vect128i.map2 (fun a b => (a * b) % 2 ^ 32) v w

/-- Embedding of `_mm_srli_si128(v, 4)`: shift the whole register right by
4 bytes, i.e. one 32-bit lane; the vacated top lane is zero. -/
def Vect128i.srli4 (v : Vect128i) : Vect128i :=
  ⟨v.l1, v.l2, v.l3, 0⟩

/-- Embedding of `_mm_mul_epu32`: multiply the unsigned 32-bit values in
lanes 0 and 2, storing each 64-bit product across a pair of lanes
(low half in the even lane, high half in the odd lane). -/
def Vect128i.mulEpu32 (v w : Vect128i) : Vect128i :=
  ⟨(v.l0 * w.l0) % 2 ^ 32, ((v.l0 * w.l0) / 2 ^ 32) % 2 ^ 32,
   (v.l2 * w.l2) % 2 ^ 32, ((v.l2 * w.l2) / 2 ^ 32) % 2 ^ 32⟩

/-- Embedding of `_mm_shuffle_epi32(v, _MM_SHUFFLE(0, 0, 2, 0))`: the
result lanes are source lanes (0, 2, 0, 0) in order. -/
def Vect128i.shuffle0020 (v : Vect128i) : Vect128i :=
  ⟨v.l0, v.l2, v.l0, v.l0⟩

/-- Embedding of `_mm_unpacklo_epi32`: interleave the two low lanes of
each operand. -/
def Vect128i.unpacklo (v w : Vect128i) : Vect128i :=
  ⟨v.l0, w.l0, v.l1, w.l1⟩

/-- Embedding of the fallback path of `Vect128i::operator*` (compiled when
`HAVE_SSE41` is absent): two `_mm_mul_epu32` over even/odd lane pairs,
recombined by shuffles and an unpack. -/
def Vect128i.mulFallback (v w : Vect128i) : Vect128i :=
  Vect128i.unpacklo
    ((Vect128i.mulEpu32 v w).shuffle0020)
    ((Vect128i.mulEpu32 v.srli4 w.srli4).shuffle0020)

/-- Embedding of `Vect128i::operator<` (`_mm_cmplt_epi32`): signed lane
compare producing an all-ones / all-zeros mask lane. -/
def Vect128i.icmplt (v w : Vect128i) : Vect128i :=
  Vect128i.map2 (fun a b => maskOf (decide (toInt32 a < toInt32 b))) v w

/-- Embedding of `Vect128i::operator>` (`_mm_cmpgt_epi32`). -/
def Vect128i.icmpgt (v w : Vect128i) : Vect128i :=
  Vect128i.map2 (fun a b => maskOf (decide (toInt32 b < toInt32 a))) v w

/-- Embedding of `Vect128i::operator==` (`_mm_cmpeq_epi32`): lanes are
equal exactly when their 32-bit patterns are equal. -/
def Vect128i.icmpeq (v w : Vect128i) : Vect128i :=
  Vect128i.map2 (fun a b => maskOf (decide (a = b))) v w

/-- Embedding of `Vect128i::operator~`: XOR with `Vect128i(0xFFFFFFFF)`,
whose `int32_t` argument has two's-complement pattern `0xFFFFFFFF`. -/
def Vect128i.bnot (v : Vect128i) : Vect128i :=
  Vect128i.map2 (fun a b => a ^^^ b) v (Vect128i.set1 0xFFFFFFFF)

/-- Floor of the base-2 logarithm, by structural recursion on a fuel bound
(`log2fuel fuel n` is exact whenever `n < 2 ^ fuel`). -/
def log2fuel : Nat → Nat → Nat
  | 0, _ => 0
  | fuel + 1, n => if n ≤ 1 then 0 else log2fuel fuel (n / 2) + 1

/-- Floor of the base-2 logarithm for the inputs this embedding uses
(anything below 2 ^ 160). -/
def log2f (n : Nat) : Nat :=
  log2fuel 160 n

/-- IEEE-754 binary32 bit pattern of a natural number, rounded to nearest
with ties to even (the conversion a C++ integer-to-float cast performs
in the default rounding mode); values at or above 2 ^ 128 give infinity. -/
def floatBitsOfNat (n : Nat) : Nat :=
  if n = 0 then 0
  else
    let e := log2f n
    if e ≤ 23 then (127 + e) * 2 ^ 23 + (n * 2 ^ (23 - e) - 2 ^ 23)
    else
      let shift := e - 23
      let q := n / 2 ^ shift
      let r := n % 2 ^ shift
      let half := 2 ^ (shift - 1)
      let q2 := if half < r ∨ (r = half ∧ q % 2 = 1) then q + 1 else q
      if q2 = 2 ^ 24 then
        if 255 ≤ 127 + e + 1 then 0x7F800000 else (127 + e + 1) * 2 ^ 23
      else
        if 255 ≤ 127 + e then 0x7F800000 else (127 + e) * 2 ^ 23 + (q2 - 2 ^ 23)

/-- Sign bit of a binary32 pattern. -/
def fsign (x : Nat) : Nat :=
  (x / 2 ^ 31) % 2

/-- Exponent field of a binary32 pattern. -/
def fexp (x : Nat) : Nat :=
  (x / 2 ^ 23) % 2 ^ 8

/-- Mantissa field of a binary32 pattern. -/
def fmant (x : Nat) : Nat :=
  x % 2 ^ 23

/-- A binary32 pattern encodes a NaN exactly when the exponent field is
all ones and the mantissa is non-zero. -/
def fIsNaN (x : Nat) : Bool :=
  fexp x == 255 && fmant x != 0

/-- Magnitude (everything but the sign bit) of a binary32 pattern. -/
def fmag (x : Nat) : Nat :=
  x % 2 ^ 31

/-- The pattern encodes (positive or negative) zero. -/
def fIsZero (x : Nat) : Bool :=
  fmag x == 0

/-- IEEE-754 less-than on two non-NaN binary32 patterns.  The binary32
encoding is monotone in sign-magnitude form: distinct non-NaN values of
equal sign compare like their magnitude fields, any negative (or negative
zero) is below any positive value, and the two zeros are equal. -/
def fltB (a b : Nat) : Bool :=
  if fIsZero a && fIsZero b then false
  else if fsign a == 1 then
    (if fsign b == 1 then decide (fmag b < fmag a) else true)
  else
    (if fsign b == 1 then false else decide (fmag a < fmag b))

/-- IEEE-754 equality on two non-NaN binary32 patterns: identical
patterns, or the two zeros. -/
def feqB (a b : Nat) : Bool :=
  (fIsZero a && fIsZero b) || a == b

/-- Neither operand is NaN (the comparison is ordered). -/
def fordered (a b : Nat) : Bool :=
  !fIsNaN a && !fIsNaN b

/-- Lane condition of `_mm_cmplt_ps` (ordered less-than, false on NaN). -/
def cmpltB (a b : Nat) : Bool :=
  fordered a b && fltB a b

/-- Lane condition of `_mm_cmpgt_ps` (ordered greater-than, false on NaN). -/
def cmpgtB (a b : Nat) : Bool :=
  fordered a b && fltB b a

/-- Lane condition of `_mm_cmpeq_ps` (ordered equality, false on NaN). -/
def cmpeqB (a b : Nat) : Bool :=
  fordered a b && feqB a b

/-- Lane condition of `_mm_cmpngt_ps` (not-greater-than, true on NaN). -/
def cmpngtB (a b : Nat) : Bool :=
  !(cmpgtB a b)

/-- Lane condition of `_mm_cmpnlt_ps` (not-less-than, true on NaN). -/
def cmpnltB (a b : Nat) : Bool :=
  !(cmpltB a b)

/-- Lane condition of `_mm_cmpneq_ps` (unordered not-equal, true on NaN). -/
def cmpneqB (a b : Nat) : Bool :=
  !(cmpeqB a b)

/-- Bit patterns of the four 32-bit lanes of an `__m128` register
(`Vect128f` in src/simd_128.hpp); `l0` is the lowest-addressed lane. -/
structure Vect128f where
  l0 : Nat
  l1 : Nat
  l2 : Nat
  l3 : Nat
deriving DecidableEq

/-- All four lanes are genuine 32-bit patterns. -/
def Vect128f.Wf (v : Vect128f) : Prop :=
  v.l0 < 2 ^ 32 ∧ v.l1 < 2 ^ 32 ∧ v.l2 < 2 ^ 32 ∧ v.l3 < 2 ^ 32

instance (v : Vect128f) : Decidable v.Wf := by
  unfold Vect128f.Wf; infer_instance

/-- Lane accessor (lane k of the register, k = 0..3). -/
def Vect128f.lane (v : Vect128f) (k : Fin 4) : Nat :=
  if k.val = 0 then v.l0 else if k.val = 1 then v.l1 else if k.val = 2 then v.l2 else v.l3

/-- Lane-wise combination of two registers. -/
def Vect128f.map2 (f : Nat → Nat → Nat) (v w : Vect128f) : Vect128f :=
  ⟨f v.l0 w.l0, f v.l1 w.l1, f v.l2 w.l2, f v.l3 w.l3⟩

/-- Embedding of the constructor `Vect128f(float i0, i1, i2, i3)`
(`_mm_setr_ps`), the arguments given by their binary32 bit patterns:
the first argument lands in lane 0. -/
def Vect128f.setr (b0 b1 b2 b3 : Nat) : Vect128f :=
  ⟨b0, b1, b2, b3⟩

/-- Embedding of the broadcast constructor `Vect128f(float i)`
(`_mm_set1_ps`), the argument given by its binary32 bit pattern. -/
def Vect128f.set1 (b : Nat) : Vect128f :=
  ⟨b, b, b, b⟩

/-- Embedding of `Vect128f::operator[]`: `storeu` the register to a
`float[4]` array and read entry `idx` (returned as its bit pattern). -/
def Vect128f.fidx (v : Vect128f) (k : Fin 4) : Nat :=
  v.lane k

/-- Embedding of `Vect128f::operator^` (`_mm_xor_ps`): lane-wise XOR of
the bit patterns. -/
def Vect128f.fxor (v w : Vect128f) : Vect128f :=
  Vect128f.map2 (fun a b => a ^^^ b) v w

/-- Embedding of `Vect128f::operator~`: `operator^(Vect128f(0xFFFFFFFF))`.
The broadcast constructor takes a `float`, so the integer `0xFFFFFFFF`
is first converted to the float value 4294967296.0 (rounding up), whose
bit pattern `floatBitsOfNat 0xFFFFFFFF` is what every lane is XORed with. -/
def Vect128f.bnot (v : Vect128f) : Vect128f :=
  v.fxor (Vect128f.set1 (floatBitsOfNat 0xFFFFFFFF))

/-- Embedding of `Vect128f::operator<` (`_mm_cmplt_ps`). -/
def Vect128f.fcmplt (v w : Vect128f) : Vect128f :=
  Vect128f.map2 (fun a b => maskOf (cmpltB a b)) v w

/-- Embedding of `Vect128f::operator<=` (`_mm_cmpngt_ps`). -/
def Vect128f.fcmple (v w : Vect128f) : Vect128f :=
  Vect128f.map2 (fun a b => maskOf (cmpngtB a b)) v w

/-- Embedding of `Vect128f::operator>` (`_mm_cmpgt_ps`). -/
def Vect128f.fcmpgt (v w : Vect128f) : Vect128f :=
  Vect128f.map2 (fun a b => maskOf (cmpgtB a b)) v w

/-- Embedding of `Vect128f::operator>=` (`_mm_cmpnlt_ps`). -/
def Vect128f.fcmpge (v w : Vect128f) : Vect128f :=
  Vect128f.map2 (fun a b => maskOf (cmpnltB a b)) v w

/-- Embedding of `Vect128f::operator==` (`_mm_cmpeq_ps`). -/
def Vect128f.fcmpeq (v w : Vect128f) : Vect128f :=
  Vect128f.map2 (fun a b => maskOf (cmpeqB a b)) v w

/-- Embedding of `Vect128f::operator!=` (`_mm_cmpneq_ps`). -/
def Vect128f.fcmpneq (v w : Vect128f) : Vect128f :=
  Vect128f.map2 (fun a b => maskOf (cmpneqB a b)) v w

/-- Objective reading of the spec phrase "IEEE ordered less-than-or-equal":
true exactly when both operands are non-NaN and a is less than or equal
to b.  Stated from the spec wording, for comparison with the code's
not-greater-than semantics. -/
def ordLE (a b : Nat) : Bool :=
  fordered a b && (fltB a b || feqB a b)

/-- The spec wording's "IEEE ordered greater-than-or-equal", for comparison
with the code's not-less-than semantics. -/
def ordGE (a b : Nat) : Bool :=
  fordered a b && (fltB b a || feqB a b)

/-- Embedding of the aligned-pointer derivation in the `AlignedStorage`
constructor (src/simd.hpp): from the raw address p, the aligned member is
p + (Align - p % Align). -/
def alignedPtr (p A : Nat) : Nat :=
  p + (A - p % A)

/-- Functional model of an `AlignedStorage<T, Align>` buffer as seen
through its aligned pointer: an element count and the contents of the
aligned buffer. -/
structure AlignedStorageModel (T : Type) where
  length : Nat
  data : Nat → T

/-- Embedding of `AlignedStorage::at(int i)`: an out-of-range error
exactly when i < 0 or i >= length, otherwise the element at index i. -/
def AlignedStorageModel.atIdx {T : Type} (s : AlignedStorageModel T) (i : Int) : Except String T :=
  if i < 0 ∨ (s.length : Int) ≤ i then Except.error "outside of aligned storage boundary"
  else Except.ok (s.data i.toNat)

/-! Helper lemmas shared by the claim theorems. -/

lemma Vect128i.lane_map2i (f : Nat → Nat → Nat) (v w : Vect128i) (k : Fin 4) :
    (Vect128i.map2 f v w).lane k = f (v.lane k) (w.lane k) := by
  fin_cases k <;> rfl

lemma Vect128i.wf_lane {v : Vect128i} (h : v.Wf) (k : Fin 4) : v.lane k < 2 ^ 32 := by
  unfold Vect128i.Wf at h
  obtain ⟨h0, h1, h2, h3⟩ := h
  unfold Vect128i.lane
  split_ifs <;> assumption

lemma Vect128f.lane_map2f (f : Nat → Nat → Nat) (v w : Vect128f) (k : Fin 4) :
    (Vect128f.map2 f v w).lane k = f (v.lane k) (w.lane k) := by
  fin_cases k <;> rfl

lemma toInt32_mod_int (a : Nat) : toInt32 a % (2 ^ 32 : Int) = (a : Int) % 2 ^ 32 := by
  unfold toInt32
  split <;> omega

lemma toInt32_emod_toNat (i : Int) (h1 : -(2 ^ 31) ≤ i) (h2 : i < 2 ^ 31) :
    toInt32 ((i % (2 ^ 32 : Int)).toNat) = i := by
  unfold toInt32
  split <;> omega

lemma low32_mul_signed (a b : Nat) (_ha : a < 2 ^ 32) (_hb : b < 2 ^ 32) :
    (((a * b) % 2 ^ 32 : Nat) : Int) = (toInt32 a * toInt32 b) % (2 ^ 32 : Int) := by
  have h3 : (toInt32 a * toInt32 b) % (2 ^ 32 : Int) = ((a : Int) * b) % 2 ^ 32 := by
    conv_lhs => rw [Int.mul_emod, toInt32_mod_int, toInt32_mod_int, ← Int.mul_emod]
  rw [h3]
  have h4 : (a : Int) * b = ((a * b : Nat) : Int) := by push_cast; ring
  rw [h4]
  omega

lemma alignedPtr_eq_mul (p A : Nat) (hA : 0 < A) :
    alignedPtr p A = A * (p / A) + A := by
  unfold alignedPtr
  have h1 := Nat.div_add_mod p A
  have h2 : p % A < A := Nat.mod_lt p hA
  omega

lemma alignedPtr_mod (p A : Nat) (hA : 0 < A) : alignedPtr p A % A = 0 := by
  rw [alignedPtr_eq_mul p A hA, Nat.mul_add_mod, Nat.mod_self]

lemma alignedPtr_min (p A : Nat) (hA : 0 < A) (d : Nat) (hd : 0 < d)
    (hmod : (p + d) % A = 0) : A - p % A ≤ d := by
  obtain ⟨m, hm⟩ := Nat.dvd_of_mod_eq_zero hmod
  have h1 := Nat.div_add_mod p A
  have h2 : p % A < A := Nat.mod_lt p hA
  have h3 : A * (p / A) < A * m := by omega
  have h4 : p / A < m := Nat.lt_of_mul_lt_mul_left h3
  have h5 : A * (p / A + 1) ≤ A * m := Nat.mul_le_mul_left A (by omega)
  have h6 : A * (p / A + 1) = A * (p / A) + A := by ring
  omega

lemma toInt32_maskOf (c : Bool) : toInt32 (maskOf c) = if c then -1 else 0 := by
  cases c <;> decide

lemma fIsNaN_maskOf {c : Bool} (h : c = true) : fIsNaN (maskOf c) = true := by
  subst h; decide

lemma maskOf_eq_zero {c : Bool} (h : c = false) : maskOf c = 0 := by
  subst h; rfl

lemma unord_cmp (a b : Nat) (h : fIsNaN a = true ∨ fIsNaN b = true) :
    cmpgtB a b = false ∧ cmpltB a b = false := by
  unfold cmpgtB cmpltB fordered
  rcases h with h | h <;> simp [h]

/-! Claim theorems. -/

/-- C3 counterexample: with AlignmentBytes = 16 and an already aligned raw
pointer p = 16, the claim says the aligned pointer equals p (offset d = 0);
the constructor instead computes 16 + (16 - 16 % 16) = 32. -/
theorem C3_alignment_offset_counterexample :
    16 % 16 = 0 ∧ alignedPtr 16 16 ≠ 16 := by decide

/-- C3 (amended): the constructor derives the aligned pointer as p + d with
d = Align - p % Align, the smallest offset d with 0 < d <= Align making
p + d a multiple of Align; when p is already a multiple of Align the
aligned pointer is p + Align, not p. -/
theorem C3_alignment_offset (p A : Nat) (hA : 0 < A) :
    alignedPtr p A = p + (A - p % A)
    ∧ 0 < A - p % A
    ∧ A - p % A ≤ A
    ∧ alignedPtr p A % A = 0
    ∧ (∀ d : Nat, 0 < d → (p + d) % A = 0 → A - p % A ≤ d)
    ∧ (p % A = 0 → alignedPtr p A = p + A) := by
  have h2 : p % A < A := Nat.mod_lt p hA
  refine ⟨rfl, by omega, by omega, alignedPtr_mod p A hA,
    fun d hd hmod => alignedPtr_min p A hA d hd hmod, fun h => ?_⟩
  unfold alignedPtr
  omega

/-- C3 witness: the amended derivation at p = 5, Align = 16. -/
theorem C3_alignment_offset_witness :
    alignedPtr 5 16 % 16 = 0 ∧ alignedPtr 5 16 = 5 + 11 := by
  have h := C3_alignment_offset 5 16 (by decide)
  exact ⟨h.2.2.2.1, by rw [h.1]⟩

/-- C4: the aligned pointer is a multiple of AlignmentBytes, is not below
the raw allocation, and leaves room for all length elements inside the
allocation of length * sizeof(ElementType) + AlignmentBytes bytes. -/
theorem C4_alignment_invariant (p A len size : Nat) (hA : 0 < A) :
    alignedPtr p A % A = 0
    ∧ p ≤ alignedPtr p A
    ∧ alignedPtr p A + len * size ≤ p + (len * size + A) := by
  refine ⟨alignedPtr_mod p A hA, ?_, ?_⟩ <;> unfold alignedPtr <;> omega

/-- C4 witness: the invariant at p = 5, Align = 16, length = 4, 4-byte elements. -/
theorem C4_alignment_invariant_witness :
    alignedPtr 5 16 % 16 = 0 ∧ 5 ≤ alignedPtr 5 16
    ∧ alignedPtr 5 16 + 4 * 4 ≤ 5 + (4 * 4 + 16) :=
  C4_alignment_invariant 5 16 4 4 (by decide)

/-- C7: integer vector addition is lane-wise signed 32-bit addition
wrapping modulo 2^32: the signed reading of each result lane is in the
int32 range and congruent to the sum of the operands' signed readings
modulo 2^32; concretely (0,-1,1,2147483647) + (1,1,1,1) =
(1,0,2,-2147483648). -/
theorem C7_int_add_wrap :
    (∀ v w : Vect128i, v.Wf → w.Wf → ∀ k : Fin 4,
        -(2 ^ 31) ≤ toInt32 ((v.iadd w).lane k)
        ∧ toInt32 ((v.iadd w).lane k) < 2 ^ 31
        ∧ (toInt32 ((v.iadd w).lane k)
            - (toInt32 (v.lane k) + toInt32 (w.lane k))) % (2 ^ 32 : Int) = 0)
    ∧ (Vect128i.setr 0 (-1) 1 2147483647).iadd (Vect128i.setr 1 1 1 1)
        = Vect128i.setr 1 0 2 (-2147483648) := by
  constructor
  · intro v w _ _ k
    unfold Vect128i.iadd
    rw [Vect128i.lane_map2i]
    unfold toInt32
    split_ifs <;> omega
  · decide

/-- C7 witness: the wrap bounds at the overflowing lane 3 of the spec's
end-to-end example. -/
theorem C7_int_add_wrap_witness :
    -(2 ^ 31) ≤ toInt32 (((Vect128i.setr 0 (-1) 1 2147483647).iadd
        (Vect128i.setr 1 1 1 1)).lane 3)
    ∧ toInt32 (((Vect128i.setr 0 (-1) 1 2147483647).iadd
        (Vect128i.setr 1 1 1 1)).lane 3) < 2 ^ 31
    ∧ (toInt32 (((Vect128i.setr 0 (-1) 1 2147483647).iadd
          (Vect128i.setr 1 1 1 1)).lane 3)
        - (toInt32 ((Vect128i.setr 0 (-1) 1 2147483647).lane 3)
            + toInt32 ((Vect128i.setr 1 1 1 1).lane 3))) % (2 ^ 32 : Int) = 0 :=
  C7_int_add_wrap.1 (Vect128i.setr 0 (-1) 1 2147483647) (Vect128i.setr 1 1 1 1)
    (by decide) (by decide) 3

/-- C8: the bounds-checked accessor at(i) signals an out-of-range error
exactly when i < 0 or i >= length, and otherwise returns element i of the
aligned buffer (the model is a pure function, so the storage is unchanged). -/
theorem C8_at_bounds :
    ∀ (T : Type) (s : AlignedStorageModel T) (i : Int),
      ((∃ e, s.atIdx i = Except.error e) ↔ i < 0 ∨ (s.length : Int) ≤ i)
      ∧ (0 ≤ i → i < (s.length : Int) → s.atIdx i = Except.ok (s.data i.toNat)) := by
  intro T s i
  constructor
  · constructor
    · rintro ⟨e, he⟩
      unfold AlignedStorageModel.atIdx at he
      by_cases hc : i < 0 ∨ (s.length : Int) ≤ i
      · exact hc
      · rw [if_neg hc] at he
        simp at he
    · intro h
      refine ⟨"outside of aligned storage boundary", ?_⟩
      unfold AlignedStorageModel.atIdx
      rw [if_pos h]
  · intro h1 h2
    unfold AlignedStorageModel.atIdx
    rw [if_neg (by omega)]

/-- C8 witness: on a two-element buffer holding 7s, index 1 succeeds and
index 5 is an out-of-range error. -/
theorem C8_at_bounds_witness :
    (AlignedStorageModel.mk 2 (fun _ => (7 : Nat))).atIdx 1 = Except.ok 7
    ∧ ∃ e, (AlignedStorageModel.mk 2 (fun _ => (7 : Nat))).atIdx 5 = Except.error e :=
  ⟨(C8_at_bounds Nat (AlignedStorageModel.mk 2 (fun _ => (7 : Nat))) 1).2
      (by omega) (by norm_num),
   ((C8_at_bounds Nat (AlignedStorageModel.mk 2 (fun _ => (7 : Nat))) 5).1).mpr
      (by norm_num)⟩

/-- C10: the four-argument constructors place their first argument in
lane 0 and their fourth in lane 3, as observed through the unchecked
indexed read operator. -/
theorem C10_lane_order :
    (∀ i0 i1 i2 i3 : Int,
        -(2 ^ 31) ≤ i0 → i0 < 2 ^ 31 → -(2 ^ 31) ≤ i1 → i1 < 2 ^ 31 →
        -(2 ^ 31) ≤ i2 → i2 < 2 ^ 31 → -(2 ^ 31) ≤ i3 → i3 < 2 ^ 31 →
        (Vect128i.setr i0 i1 i2 i3).idx 0 = i0
        ∧ (Vect128i.setr i0 i1 i2 i3).idx 1 = i1
        ∧ (Vect128i.setr i0 i1 i2 i3).idx 2 = i2
        ∧ (Vect128i.setr i0 i1 i2 i3).idx 3 = i3)
    ∧ (∀ b0 b1 b2 b3 : Nat,
        (Vect128f.setr b0 b1 b2 b3).fidx 0 = b0
        ∧ (Vect128f.setr b0 b1 b2 b3).fidx 1 = b1
        ∧ (Vect128f.setr b0 b1 b2 b3).fidx 2 = b2
        ∧ (Vect128f.setr b0 b1 b2 b3).fidx 3 = b3) := by
  constructor
  · intro i0 i1 i2 i3 h0a h0b h1a h1b h2a h2b h3a h3b
    exact ⟨toInt32_emod_toNat i0 h0a h0b, toInt32_emod_toNat i1 h1a h1b,
           toInt32_emod_toNat i2 h2a h2b, toInt32_emod_toNat i3 h3a h3b⟩
  · intro b0 b1 b2 b3
    exact ⟨rfl, rfl, rfl, rfl⟩

/-- C10 witness: lane order at the concrete vectors (5,-6,7,-8) and
(9,10,11,12). -/
theorem C10_lane_order_witness :
    (Vect128i.setr 5 (-6) 7 (-8)).idx 1 = -6
    ∧ (Vect128f.setr 9 10 11 12).fidx 2 = 11 :=
  ⟨(C10_lane_order.1 5 (-6) 7 (-8) (by decide) (by decide) (by decide) (by decide)
      (by decide) (by decide) (by decide) (by decide)).2.1,
   (C10_lane_order.2 9 10 11 12).2.2.1⟩

/-- C6: the decomposed-multiply fallback path of `Vect128i::operator*`
is bit-identical to the native `_mm_mullo_epi32` path on every input, and
every lane of the result is the low 32 bits of the 64-bit product of the
two signed lanes. -/
theorem C6_mul_fallback :
    (∀ v w : Vect128i, v.mulFallback w = v.mullo w)
    ∧ (∀ v w : Vect128i, v.Wf → w.Wf → ∀ k : Fin 4,
        (((v.mullo w).lane k : Nat) : Int)
          = (toInt32 (v.lane k) * toInt32 (w.lane k)) % (2 ^ 32 : Int)) := by
  constructor
  · intro v w
    rfl
  · intro v w hv hw k
    unfold Vect128i.mullo
    rw [Vect128i.lane_map2i]
    exact low32_mul_signed (v.lane k) (w.lane k)
      (Vect128i.wf_lane hv k) (Vect128i.wf_lane hw k)

/-- C6 witness: the low-32-bits-of-product reading at lane 2 of two
concrete vectors. -/
theorem C6_mul_fallback_witness :
    ((((Vect128i.setr 3 (-7) 65537 123456789).mullo
        (Vect128i.setr 5 11 65537 (-987654321))).lane 2 : Nat) : Int)
      = (toInt32 ((Vect128i.setr 3 (-7) 65537 123456789).lane 2)
          * toInt32 ((Vect128i.setr 5 11 65537 (-987654321)).lane 2)) % (2 ^ 32 : Int) :=
  C6_mul_fallback.2 (Vect128i.setr 3 (-7) 65537 123456789)
    (Vect128i.setr 5 11 65537 (-987654321)) (by decide) (by decide) 2

/-- C1: integer comparison lanes read back as the int32 -1 (all bits set)
for true and 0 for false; float comparison lanes are a NaN bit pattern
for true and the pattern of 0.0 for false; concretely, for float lanes
i = (0, 1, -1, 2147483647.0) and s = (0, 0, 0, 1), lane 3 of i > s is NaN
and lane 0 is 0.0. -/
theorem C1_mask_encoding :
    (∀ v w : Vect128i, ∀ k : Fin 4,
        toInt32 ((v.icmplt w).lane k)
          = if toInt32 (v.lane k) < toInt32 (w.lane k) then -1 else 0)
    ∧ (∀ v w : Vect128i, ∀ k : Fin 4,
        toInt32 ((v.icmpgt w).lane k)
          = if toInt32 (w.lane k) < toInt32 (v.lane k) then -1 else 0)
    ∧ (∀ v w : Vect128i, ∀ k : Fin 4,
        toInt32 ((v.icmpeq w).lane k) = if v.lane k = w.lane k then -1 else 0)
    ∧ (∀ v w : Vect128f, ∀ k : Fin 4,
        (cmpltB (v.lane k) (w.lane k) = true → fIsNaN ((v.fcmplt w).lane k) = true)
        ∧ (cmpltB (v.lane k) (w.lane k) = false → (v.fcmplt w).lane k = 0))
    ∧ (∀ v w : Vect128f, ∀ k : Fin 4,
        (cmpngtB (v.lane k) (w.lane k) = true → fIsNaN ((v.fcmple w).lane k) = true)
        ∧ (cmpngtB (v.lane k) (w.lane k) = false → (v.fcmple w).lane k = 0))
    ∧ (∀ v w : Vect128f, ∀ k : Fin 4,
        (cmpgtB (v.lane k) (w.lane k) = true → fIsNaN ((v.fcmpgt w).lane k) = true)
        ∧ (cmpgtB (v.lane k) (w.lane k) = false → (v.fcmpgt w).lane k = 0))
    ∧ (∀ v w : Vect128f, ∀ k : Fin 4,
        (cmpnltB (v.lane k) (w.lane k) = true → fIsNaN ((v.fcmpge w).lane k) = true)
        ∧ (cmpnltB (v.lane k) (w.lane k) = false → (v.fcmpge w).lane k = 0))
    ∧ (∀ v w : Vect128f, ∀ k : Fin 4,
        (cmpeqB (v.lane k) (w.lane k) = true → fIsNaN ((v.fcmpeq w).lane k) = true)
        ∧ (cmpeqB (v.lane k) (w.lane k) = false → (v.fcmpeq w).lane k = 0))
    ∧ (∀ v w : Vect128f, ∀ k : Fin 4,
        (cmpneqB (v.lane k) (w.lane k) = true → fIsNaN ((v.fcmpneq w).lane k) = true)
        ∧ (cmpneqB (v.lane k) (w.lane k) = false → (v.fcmpneq w).lane k = 0))
    ∧ (fIsNaN (((Vect128f.setr 0 (floatBitsOfNat 1) (2 ^ 31 + floatBitsOfNat 1)
          (floatBitsOfNat 2147483647)).fcmpgt
            (Vect128f.setr 0 0 0 (floatBitsOfNat 1))).lane 3) = true
        ∧ ((Vect128f.setr 0 (floatBitsOfNat 1) (2 ^ 31 + floatBitsOfNat 1)
          (floatBitsOfNat 2147483647)).fcmpgt
            (Vect128f.setr 0 0 0 (floatBitsOfNat 1))).lane 0 = 0) := by
  refine ⟨?_, ?_, ?_, ?_, ?_, ?_, ?_, ?_, ?_, by decide⟩
  · intro v w k
    unfold Vect128i.icmplt
    rw [Vect128i.lane_map2i, toInt32_maskOf]
    by_cases h : toInt32 (v.lane k) < toInt32 (w.lane k) <;> simp [h]
  · intro v w k
    unfold Vect128i.icmpgt
    rw [Vect128i.lane_map2i, toInt32_maskOf]
    by_cases h : toInt32 (w.lane k) < toInt32 (v.lane k) <;> simp [h]
  · intro v w k
    unfold Vect128i.icmpeq
    rw [Vect128i.lane_map2i, toInt32_maskOf]
    by_cases h : v.lane k = w.lane k <;> simp [h]
  · intro v w k
    unfold Vect128f.fcmplt
    rw [Vect128f.lane_map2f]
    exact ⟨fun h => fIsNaN_maskOf h, fun h => maskOf_eq_zero h⟩
  · intro v w k
    unfold Vect128f.fcmple
    rw [Vect128f.lane_map2f]
    exact ⟨fun h => fIsNaN_maskOf h, fun h => maskOf_eq_zero h⟩
  · intro v w k
    unfold Vect128f.fcmpgt
    rw [Vect128f.lane_map2f]
    exact ⟨fun h => fIsNaN_maskOf h, fun h => maskOf_eq_zero h⟩
  · intro v w k
    unfold Vect128f.fcmpge
    rw [Vect128f.lane_map2f]
    exact ⟨fun h => fIsNaN_maskOf h, fun h => maskOf_eq_zero h⟩
  · intro v w k
    unfold Vect128f.fcmpeq
    rw [Vect128f.lane_map2f]
    exact ⟨fun h => fIsNaN_maskOf h, fun h => maskOf_eq_zero h⟩
  · intro v w k
    unfold Vect128f.fcmpneq
    rw [Vect128f.lane_map2f]
    exact ⟨fun h => fIsNaN_maskOf h, fun h => maskOf_eq_zero h⟩

/-- C1 witness: a true greater-than float lane is a NaN pattern at the
concrete vectors (3.0 broadcast) > (0.0 broadcast). -/
theorem C1_mask_encoding_witness :
    fIsNaN (((Vect128f.set1 (floatBitsOfNat 3)).fcmpgt (Vect128f.set1 0)).lane 0) = true :=
  (C1_mask_encoding.2.2.2.2.2.1 (Vect128f.set1 (floatBitsOfNat 3))
    (Vect128f.set1 0) 0).1 (by decide)

/-- C5: the float <= operator is the hardware not-greater-than compare
(true, lane-wise, exactly when not greater, hence true on any NaN
operand) and >= is not-less-than; neither coincides with the IEEE
ordered <= / >= once a NaN operand is involved. -/
theorem C5_float_le_ge :
    (∀ v w : Vect128f, ∀ k : Fin 4,
        ((v.fcmple w).lane k = 0xFFFFFFFF ↔ cmpgtB (v.lane k) (w.lane k) = false)
        ∧ ((v.fcmple w).lane k = 0 ↔ cmpgtB (v.lane k) (w.lane k) = true))
    ∧ (∀ v w : Vect128f, ∀ k : Fin 4,
        ((v.fcmpge w).lane k = 0xFFFFFFFF ↔ cmpltB (v.lane k) (w.lane k) = false)
        ∧ ((v.fcmpge w).lane k = 0 ↔ cmpltB (v.lane k) (w.lane k) = true))
    ∧ (∀ v w : Vect128f, ∀ k : Fin 4,
        (fIsNaN (v.lane k) = true ∨ fIsNaN (w.lane k) = true) →
          (v.fcmple w).lane k = 0xFFFFFFFF ∧ (v.fcmpge w).lane k = 0xFFFFFFFF)
    ∧ (∃ a b : Nat, a < 2 ^ 32 ∧ b < 2 ^ 32
        ∧ cmpngtB a b ≠ ordLE a b ∧ cmpnltB a b ≠ ordGE a b) := by
  refine ⟨?_, ?_, ?_, ⟨0x7FC00000, 0, by decide, by decide, by decide, by decide⟩⟩
  · intro v w k
    unfold Vect128f.fcmple
    rw [Vect128f.lane_map2f]
    unfold cmpngtB maskOf
    cases h : cmpgtB (v.lane k) (w.lane k) <;> simp
  · intro v w k
    unfold Vect128f.fcmpge
    rw [Vect128f.lane_map2f]
    unfold cmpnltB maskOf
    cases h : cmpltB (v.lane k) (w.lane k) <;> simp
  · intro v w k h
    obtain ⟨hgt, hlt⟩ := unord_cmp (v.lane k) (w.lane k) h
    unfold Vect128f.fcmple Vect128f.fcmpge
    rw [Vect128f.lane_map2f, Vect128f.lane_map2f]
    unfold cmpngtB cmpnltB
    rw [hgt, hlt]
    exact ⟨rfl, rfl⟩

/-- C5 witness: with a quiet-NaN left operand against 0.0, both <= and >=
produce an all-ones (true) lane. -/
theorem C5_float_le_ge_witness :
    ((Vect128f.set1 0x7FC00000).fcmple (Vect128f.set1 0)).lane 0 = 0xFFFFFFFF
    ∧ ((Vect128f.set1 0x7FC00000).fcmpge (Vect128f.set1 0)).lane 0 = 0xFFFFFFFF :=
  C5_float_le_ge.2.2.1 (Vect128f.set1 0x7FC00000) (Vect128f.set1 0) 0
    (Or.inl (by decide))

/-- C2: evaluation of the float NOT operator at the failing input
v = (0,0,0,0).  The broadcast constructor converts the integer 0xFFFFFFFF
to the float 4294967296.0 with bit pattern 0x4F800000, so the operator
XORs with 0x4F800000, not with an all-ones-bits vector: lane 0 of ~v is
0x4F800000 instead of the bitwise complement 0xFFFFFFFF that the claim
(and the operator's own documentation, and the integer vector NOT shown
in the last conjunct) prescribe. -/
theorem C2_float_not_constant :
    floatBitsOfNat 0xFFFFFFFF = 0x4F800000
    ∧ ((Vect128f.set1 0).bnot).lane 0 = 0x4F800000
    ∧ ((Vect128f.set1 0).bnot).lane 0 ≠ 0xFFFFFFFF
    ∧ ((Vect128i.set1 0).bnot).lane 0 = 0xFFFFFFFF := by decide

/-- C9: there is a non-zero float vector whose double NOT compares
unequal to the original, observable as a true (all-ones, NaN) lane of the
!= comparison; the quiet-NaN vector is such a vector, since double NOT is
bit-identical to the original and NaN is IEEE-unequal to itself. -/
theorem C9_not_involution_gap :
    ∃ v : Vect128f, v.Wf ∧ (v.l0 ≠ 0 ∨ v.l1 ≠ 0 ∨ v.l2 ≠ 0 ∨ v.l3 ≠ 0)
      ∧ ∃ k : Fin 4, ((v.bnot.bnot).fcmpneq v).lane k = 0xFFFFFFFF :=
  ⟨Vect128f.set1 0x7FC00000, by decide, by decide, 0, by decide⟩

end Sight
